import Mathlib

/-!
Verification development for the TypeScript user-code runner
(`UserCodeRunner.ts` and its utility modules).

The definitions below are a shallow embedding of the runner's source:

* `UCR.Result` / `UCR.JsValue` model the `Result` monad of `utils/monads`
  (whose payload slots hold either the exported `None` sentinel symbol or a
  genuine value);
* `UCR.Or` models the `Or` type-guard combinator of
  `utils/typeGuardCombinators.ts`, including the fact that the inner callback
  discards the guard's result and returns JS `undefined`;
* `UCR.hashInput` / `UCR.executeCompileStage` model the compilation-cache key
  derivation and the cache interaction of `UserCodeRunner.executeUserCode`;
* the diagnostic machinery (`UCR.executionHarnessTypeErrorCtor`,
  `UCR.processDiagnostics`, message mapping, locations) models
  `UserCodeTypeError`, `ExecutionHarnessTypeError` and
  `createMapDiagnosticMessage`;
* the runtime-fault machinery (`UCR.runtimeStack`, `UCR.runtimeLocation`)
  models `UserCodeRuntimeError` over abstract stack frames and an abstract
  source-map translation function.

JS exceptions raised by the embedded code (dereferencing `undefined`,
`throw new Error(...)`) are modelled with `Except UCR.HostThrow`.
-/

namespace UCR

/-! ## utils/monads: the `Result` class -/

/-- A JS value stored in a `Result` slot: either the exported `None` sentinel
symbol or a payload value. -/
inductive JsValue (α : Type) where
  | noneSentinel : JsValue α
  | payload (a : α) : JsValue α
deriving DecidableEq

/-- The `Result` class of `utils/monads`: a private `value` slot and a private
`error` slot, each holding either a payload or the `None` sentinel. -/
structure Result (α ε : Type) where
  value : JsValue α
  error : JsValue ε
deriving DecidableEq

/-- `Result.Ok(value)`: stores the value and puts the sentinel in the error slot. -/
def Result.Ok {α ε : Type} (value : JsValue α) : Result α ε :=
  { value := value, error := JsValue.noneSentinel }

/-- `Result.Err(error)`: stores the error and puts the sentinel in the value slot. -/
def Result.Err {α ε : Type} (error : JsValue ε) : Result α ε :=
  { value := JsValue.noneSentinel, error := error }

/-- `isOk()`: `this.error === None && this.value !== None`. -/
def Result.isOk {α ε : Type} [DecidableEq α] [DecidableEq ε] (r : Result α ε) : Bool :=
  decide (r.error = JsValue.noneSentinel) && !(decide (r.value = JsValue.noneSentinel))

/-- `isErr()`: `this.value === None && this.error !== None`. -/
def Result.isErr {α ε : Type} [DecidableEq α] [DecidableEq ε] (r : Result α ε) : Bool :=
  decide (r.value = JsValue.noneSentinel) && !(decide (r.error = JsValue.noneSentinel))

/-! ## utils/typeGuardCombinators: the `Or` combinator -/

/-- The callback passed to `guards.some` inside `Or`: it evaluates
`predicate(arg)` as a statement and falls off the end of the function body,
returning JS `undefined` (here `Option.none`). -/
def orSomeCallback {α : Type} (predicate : α → Bool) (arg : α) : Option Bool :=
  let _ := predicate arg
  none

/-- JS truthiness of the callback result as consumed by `Array.prototype.some`:
`undefined` is falsy. -/
def jsTruthy : Option Bool → Bool
  | none => false
  | some b => b

/-- The `Or` type-guard combinator: returns a predicate that runs
`guards.some` over the list with a callback that discards each guard's
result. -/
def Or {α : Type} (guards : List (α → Bool)) : α → Bool :=
  fun arg => guards.any (fun predicate => jsTruthy (orSomeCallback predicate arg))

/-! ## The compilation-cache key of `executeUserCode` -/

/-- The string fed to the SHA-1 hash in `executeUserCode`:
`` `${userCode}:${outputType}:${argsTypes.join(':')}${additionalSourceFiles.map(f => `:${f.text}`).join('')}` ``. -/
def hashInput (userCode outputType : String) (argsTypes : List String)
    (auxTexts : List String) : String :=
  userCode ++ ":" ++ outputType ++ ":" ++ String.intercalate ":" argsTypes ++
    String.join (auxTexts.map (fun t => ":" ++ t))

/-- The key derivation the spec claims, written from the spec text:
`SHA1(userSource || "\u0001" || returnType || "\u0001" || join("\u0001", argTypes) || "\u0001" || join("\u0001", auxTexts))`
(the string being hashed). -/
def specKeyInput (userCode outputType : String) (argsTypes auxTexts : List String) : String :=
  userCode ++ "\u0001" ++ outputType ++ "\u0001" ++
    String.intercalate "\u0001" argsTypes ++ "\u0001" ++
    String.intercalate "\u0001" auxTexts

/-- The amended key derivation: the user source, followed by a colon-prefixed
return type, a colon-prefixed colon-join of the argument types (an empty field
when there are none), and a colon-prefixed block for each auxiliary text. -/
def amendedKeyInput (userCode outputType : String) (argsTypes auxTexts : List String) : String :=
  [outputType, String.intercalate ":" argsTypes].foldl (fun acc f => acc ++ ":" ++ f) userCode ++
    auxTexts.foldl (fun acc t => acc ++ ":" ++ t) ""

/-- One input tuple of `executeUserCode`, restricted to the fields that enter
the cache key (the argument values, timeout and context do not). -/
structure ExecInput where
  userCode : String
  outputType : String
  argsTypes : List String
  auxTexts : List String
deriving DecidableEq

/-- The cache key of an input. The SHA-1 digest is modelled as the identity on
the hashed string: equal inputs give equal keys, and key comparisons in the
theorems below are comparisons of the strings being hashed. -/
def cacheKey (i : ExecInput) : String :=
  hashInput i.userCode i.outputType i.argsTypes i.auxTexts

/-- The cache, modelled as an association list; `set` prepends, `get` finds the
most recent binding (the observable behavior of the LRU map for our claims). -/
def cacheGet {α : Type} (cache : List (String × α)) (key : String) : Option α :=
  (cache.find? (fun p => p.1 == key)).map Prod.snd

/-- `cache.set(key, value)`. -/
def cacheSet {α : Type} (cache : List (String × α)) (key : String) (v : α) :
    List (String × α) :=
  (key, v) :: cache

/-- Outcome of the compile-and-cache stage of `executeUserCode`: the result
that flows onward (Err diagnostics returned to the caller, or the artifacts
used for evaluation), the cache after the call, and whether `preProcess`
actually ran. -/
structure CompileStageOut (α ε : Type) where
  result : Except ε α
  cacheAfter : List (String × α)
  compiled : Bool

/-- The compile-and-cache stage of `executeUserCode`:

```
if (!this.user_file_cache.has(userCodeHash)) {
  const result = await this.preProcess(...);
  if (result.isErr()) { return result; }
  this.user_file_cache.set(userCodeHash, result.unwrap());
}
const { ... } = this.user_file_cache.get(userCodeHash)!;
```

`has` and `get` are combined into one lookup (`has` is `get`-is-some in this
model). Note the Err branch returns before the `set`. -/
def executeCompileStage {α ε : Type} (compile : ExecInput → Except ε α)
    (cache : List (String × α)) (i : ExecInput) : CompileStageOut α ε :=
  match cacheGet cache (cacheKey i) with
  | some item => { result := Except.ok item, cacheAfter := cache, compiled := false }
  | none =>
    match compile i with
    | Except.error e => { result := Except.error e, cacheAfter := cache, compiled := true }
    | Except.ok item =>
      { result := Except.ok item
        cacheAfter := cacheSet cache (cacheKey i) item
        compiled := true }

/-! ## File-name normalization (`removeExt`) -/

/-- `path.basename`: the part of a path after the last separator (the logical
file names handled by the runner never end in a separator, so trailing-slash
stripping is not modelled). -/
def basename (p : String) : String :=
  String.mk ((p.data.reverse.takeWhile (fun c => c ≠ Char.ofNat 47)).reverse)

/-- Index of the last dot in a character list, ignoring a dot at index 0 (a
dotfile does not start an extension). -/
def lastDotFrom : List Char → Nat → Option Nat → Option Nat
  | [], _, acc => acc
  | c :: rest, i, acc =>
    lastDotFrom rest (i + 1) (if c = Char.ofNat 46 && i > 0 then some i else acc)

/-- `path.extname`: the substring of the basename from its last dot. -/
def extname (p : String) : String :=
  let b := (basename p).toList
  match lastDotFrom b 0 none with
  | none => ""
  | some i => String.mk (b.drop i)

/-- Index of the first occurrence of `pat` in a character list (an empty
pattern matches at index 0, as JS `indexOf` does). -/
def firstIndexOf (pat : List Char) : List Char → Nat → Option Nat
  | [], i => if pat.isPrefixOf [] then some i else none
  | c :: rest, i =>
    if pat.isPrefixOf (c :: rest) then some i else firstIndexOf pat rest (i + 1)

/-- JS `String.prototype.replace` with a string pattern: replaces the first
occurrence only. -/
def replaceFirst (s pat repl : String) : String :=
  match firstIndexOf pat.data s.data 0 with
  | none => s
  | some i => String.mk (s.data.take i ++ repl.data ++ s.data.drop (i + pat.data.length))

/-- `removeExt`: `path.basename(p).replace(path.extname(p), '')`. -/
def removeExt (p : String) : String :=
  replaceFirst (basename p) (extname p) ""

/-- The reserved logical name of the user module. -/
def USER_CODE_FILENAME : String := "__user_file"

/-- The reserved logical name of the synthesized execution harness. -/
def EXECUTION_HARNESS_FILENAME : String := "__execution_harness"

/-! ## Host-level JS exceptions raised by the runner's own code -/

/-- The ways the embedded runner code can throw (as opposed to returning an
`Err` list): dereferencing `undefined` (a JS `TypeError`), and the explicit
`throw new Error(...)` statements. -/
inductive HostThrow where
  | jsTypeError : HostThrow
  | unableToLocateDiagnosticNode : HostThrow
  | unmappedHarnessError (code : Nat) : HostThrow
  | missingStartPosition : HostThrow
  | insufficientMessageMapper (code : Nat) : HostThrow
  | unhandledDiagnostic (code : Nat) : HostThrow
deriving DecidableEq

/-! ## utils/errorMessageMapping: `createMapDiagnosticMessage` -/

/-- A diagnostic message chain node: `(messageText, code, next)`. -/
inductive DiagnosticMessageChain where
  | node (messageText : String) (code : Nat) (next : List DiagnosticMessageChain)

/-- `diagnostic.messageText`: a plain string or a chain. -/
inductive DiagnosticMessageText where
  | plain (s : String)
  | chain (c : DiagnosticMessageChain)

/-- The mapper table `{[errorCode: number]: (message) => string | undefined}`. -/
def Mappers : Type := Nat → Option (String → Option String)

/-- `callMapper`: look up the mapper for the code; absent means pass the
message through; a mapper returning `undefined` is an internal error. -/
def callMapper (msg : String) (code : Nat) (mappers : Mappers) : Except HostThrow String :=
  match mappers code with
  | none => Except.ok msg
  | some m =>
    match m msg with
    | none => Except.error (HostThrow.insufficientMessageMapper code)
    | some mapped => Except.ok mapped

mutual

/-- `mapDiagnosticMessageChain` on a chain node: map this node's text, then
append each child's mapped lines indented by two spaces. -/
def mapChain (mappers : Mappers) : DiagnosticMessageChain → Except HostThrow (List String)
  | DiagnosticMessageChain.node text code next => do
    let head ← callMapper text code mappers
    let rest ← mapChainList mappers next
    pure (head :: rest)

/-- The loop over `msg.next`: each recursive result is indented and appended. -/
def mapChainList (mappers : Mappers) : List DiagnosticMessageChain → Except HostThrow (List String)
  | [] => pure []
  | c :: cs => do
    let ms ← mapChain mappers c
    let rest ← mapChainList mappers cs
    pure (ms.map (fun m => "  " ++ m) ++ rest)

end

/-- `mapDiagnosticMessage(diagnostic)`: dispatch on the shape of
`messageText`, using the diagnostic's code for a plain string. -/
def mapDiagnosticMessage (mappers : Mappers) (code : Nat) :
    DiagnosticMessageText → Except HostThrow (List String)
  | DiagnosticMessageText.plain s => (callMapper s code mappers).map (fun m => [m])
  | DiagnosticMessageText.chain c => mapChain mappers c

/-- The literal tail matched by `REGEX_2792` after the captured head. -/
def regex2792Tail : String :=
  " Did you mean to set the \x27moduleResolution\x27 option to \x27node\x27, or to add aliases to the \x27paths\x27 option?"

/-- The trailing run of non-newline characters of a string (the maximal
`[^\n]+` candidate ending at the string's end). -/
def lastLineSegment (s : String) : String :=
  String.mk ((s.data.reverse.takeWhile (fun c => c ≠ Char.ofNat 10)).reverse)

/-- Scan the occurrences of the 2792 tail left to right; the regex matches at
the first occurrence preceded by at least one non-newline character, and the
captured group is that maximal non-newline run. -/
def strip2792Go (pre : String) : List String → Option String
  | [] => none
  | p :: rest =>
    let head := lastLineSegment pre
    if head.isEmpty then strip2792Go (pre ++ regex2792Tail ++ p) rest
    else some head

/-- The mapper registered for code 2792: `REGEX_2792.exec(msg)` and return the
captured head, or `undefined` when the regex does not match. -/
def strip2792 (msg : String) : Option String :=
  match msg.splitOn regex2792Tail with
  | [] => none
  | [_] => none
  | p0 :: parts => strip2792Go p0 parts

/-- `defaultErrorCodeMessageMappers`: only code 2792 has a registered mapper. -/
def defaultErrorCodeMessageMappers : Mappers :=
  fun code => if code = 2792 then some strip2792 else none

/-! ## Locations (`getLineAndCharacterOfPosition` and the location getters) -/

/-- A 0-based line/character pair as returned by
`getLineAndCharacterOfPosition`. -/
structure LineChar where
  line : Nat
  character : Nat
deriving DecidableEq

/-- A 1-based location as emitted in `UserCodeError.location`. -/
structure Location where
  line : Nat
  column : Nat
deriving DecidableEq

/-- `file.getLineAndCharacterOfPosition(pos)` over the file's text: the number
of newlines before `pos` and the distance to the previous newline. -/
def getLineAndCharacterOfPosition (text : String) (pos : Nat) : LineChar :=
  let pre := text.toList.take pos
  { line := (pre.filter (fun c => c = Char.ofNat 10)).length
    character := (pre.reverse.takeWhile (fun c => c ≠ Char.ofNat 10)).length }

/-- `UserCodeTypeError.location`: throws when the diagnostic has no start
position, otherwise 1-based line/column of the start offset in the user file. -/
def userTypeErrorLocation (userText : String) : Option Nat → Except HostThrow Location
  | none => Except.error HostThrow.missingStartPosition
  | some s =>
    let lc := getLineAndCharacterOfPosition userText s
    Except.ok { line := lc.line + 1, column := lc.character + 1 }

/-! ## JS numbers for `Math.min`/`Math.max` over spread arguments -/

/-- The JS numbers reachable from `Math.min(...starts)` and
`Math.max(...ends)`: finite values and the infinities produced on an empty
argument list (plus `nan` to make subtraction total). -/
inductive JsNum where
  | num (n : Int)
  | posInf
  | negInf
  | nan
deriving DecidableEq

/-- `Math.min(...xs)`: `Infinity` on an empty list. -/
def mathMin : List Int → JsNum
  | [] => JsNum.posInf
  | x :: xs => JsNum.num (xs.foldl min x)

/-- `Math.max(...xs)`: `-Infinity` on an empty list. -/
def mathMax : List Int → JsNum
  | [] => JsNum.negInf
  | x :: xs => JsNum.num (xs.foldl max x)

/-- IEEE subtraction on the modelled JS numbers. -/
def jsSub : JsNum → JsNum → JsNum
  | JsNum.num a, JsNum.num b => JsNum.num (a - b)
  | JsNum.num _, JsNum.posInf => JsNum.negInf
  | JsNum.num _, JsNum.negInf => JsNum.posInf
  | JsNum.posInf, JsNum.num _ => JsNum.posInf
  | JsNum.posInf, JsNum.negInf => JsNum.posInf
  | JsNum.negInf, JsNum.num _ => JsNum.negInf
  | JsNum.negInf, JsNum.posInf => JsNum.negInf
  | JsNum.posInf, JsNum.posInf => JsNum.nan
  | JsNum.negInf, JsNum.negInf => JsNum.nan
  | JsNum.nan, _ => JsNum.nan
  | _, JsNum.nan => JsNum.nan

/-- Position arithmetic on a possibly non-finite start offset, clamped to the
text (only finite offsets occur in the claims below). -/
def jsNumToPos (text : String) : JsNum → Nat
  | JsNum.num n => n.toNat
  | JsNum.posInf => text.length
  | JsNum.negInf => 0
  | JsNum.nan => 0

/-- `ExecutionHarnessTypeError.location`: `(1, 1)` when the rewritten
diagnostic has no start position, otherwise the 1-based position of the start
offset in the user file. -/
def harnessErrorLocation (userText : String) : Option JsNum → Location
  | none => { line := 1, column := 1 }
  | some s =>
    let lc := getLineAndCharacterOfPosition userText (jsNumToPos userText s)
    { line := lc.line + 1, column := lc.character + 1 }

/-! ## The user-file AST surface used by `ExecutionHarnessTypeError` -/

/-- An AST node's span and source text (`getStart()`, `getEnd()`, `getText()`). -/
structure NodeSpan where
  start : Nat
  stop : Nat
  text : String
deriving DecidableEq

/-- One parameter of a function declaration: its span and, when present, the
text of its type annotation node (`p.type?.getText()`). -/
structure ParameterModel where
  span : NodeSpan
  typeText : Option String
deriving DecidableEq

/-- A function declaration statement as inspected by the harness error class:
name, `export`/`default` modifiers, optional return type node, parameters. -/
structure FunctionDeclModel where
  name : Option String
  hasExportModifier : Bool
  hasDefaultModifier : Bool
  returnType : Option NodeSpan
  parameters : List ParameterModel
deriving DecidableEq

/-- A top-level statement of the user file, as classified by the harness error
class (function declarations, `export default <expr>` assignments, others). -/
inductive StatementModel where
  | functionDecl (f : FunctionDeclModel)
  | exportAssignment (hasDefaultKeyword : Bool) (span : NodeSpan)
  | other
deriving DecidableEq

/-- The user file's statement list. -/
abbrev UserFileModel := List StatementModel

/-- `defaultExportedFunctionNode`: the first statement that is a function
declaration carrying both the `export` and `default` modifiers (`undefined`
when the default export is an arrow expression or re-exported identifier). -/
def defaultExportedFunctionNode (stmts : UserFileModel) : Option FunctionDeclModel :=
  stmts.findSome? (fun s =>
    match s with
    | StatementModel.functionDecl f =>
      if f.hasExportModifier && f.hasDefaultModifier then some f else none
    | _ => none)

/-- `defaultExportNode`: the last export-assignment statement containing a
`default` keyword. -/
def defaultExportNode (stmts : UserFileModel) : Option NodeSpan :=
  ((stmts.filterMap (fun s =>
      match s with
      | StatementModel.exportAssignment hasDefault span => some (hasDefault, span)
      | _ => none)).reverse.find? (fun p => p.1)).map Prod.snd

/-! ## `ExecutionHarnessTypeError` -/

/-- Which harness AST anchor the diagnostic's span resolves to. This models
the result of `getDescendentAtLocation` on the harness source followed by the
identity comparisons against `executionHarnessResultNode`,
`executionHarnessDefaultFunctionCallNode`,
`executionHarnessDefaultFunctionIdentifierNode` and
`executionHarnessArgumentsNode`; `notFound` models a null lookup. -/
inductive HarnessNode where
  | resultIdentifier
  | defaultFunctionCall
  | defaultFunctionIdentifier
  | argumentsList
  | otherNode
  | notFound
deriving DecidableEq

/-- The `"(...args: A) => R"` signature text spliced into the rewritten
messages from the harness type nodes. -/
def signatureText (argsText outputText : String) : String :=
  "(...args: " ++ argsText ++ ") => " ++ outputText

/-- Message for code 1192 (module has no default export). -/
def noDefaultExportMessage (argsText outputText : String) : String :=
  "No default export. Expected a default export with the signature: \"" ++
    signatureText argsText outputText ++ "\"."

/-- Message for code 2306 (file is not a module). -/
def noExportsMessage (argsText outputText : String) : String :=
  "No exports. Expected a default export with the signature: \"" ++
    signatureText argsText outputText ++ "\"."

/-- Message for code 2349 on the callee identifier (not callable). -/
def notCallableMessage (argsText outputText : String) : String :=
  "Default export is not callable. Expected a default export with the signature: \"" ++
    signatureText argsText outputText ++ "\"."

/-- Message for a return-type mismatch at the harness result identifier. -/
def incorrectReturnMessage (outputText actualText : String) : String :=
  "Incorrect return type. Expected: \x27" ++ outputText ++ "\x27, Actual: \x27" ++
    actualText ++ "\x27."

/-- `Array.prototype.join` stringification of a possibly-undefined element:
`undefined` joins as the empty string. -/
def joinElement : Option String → String
  | none => ""
  | some t => t

/-- Message for an argument mismatch at the call/callee/argument nodes. -/
def incorrectArgumentMessage (argsText : String) (paramTypeTexts : List (Option String)) :
    String :=
  "Incorrect argument type. Expected: \x27" ++ argsText ++ "\x27, Actual: \x27[" ++
    String.intercalate ", " (paramTypeTexts.map joinElement) ++ "]\x27."

/-- The state of a diagnostic after `ExecutionHarnessTypeError`'s constructor
(or after `UserCodeTypeError` left it untouched): the file it points at, the
rewritten span, and the rewritten message text. -/
structure RewrittenDiagnostic where
  code : Nat
  file : String
  start : Option JsNum
  length : Option JsNum
  messageText : DiagnosticMessageText

/-- The constructor of `ExecutionHarnessTypeError`: locate the diagnostic node
in the harness (throwing when the lookup fails), then rewrite the diagnostic
according to the branch chain of the source. `Except.error HostThrow.jsTypeError`
models the JS `TypeError` raised by the non-null assertions
`this.defaultExportNode!` / `this.defaultExportedFunctionNode!.type!` when the
asserted value is `undefined`. -/
def executionHarnessTypeErrorCtor (code : Nat) (node : HarnessNode)
    (userStmts : UserFileModel) (argsText outputText : String) :
    Except HostThrow RewrittenDiagnostic :=
  if node = HarnessNode.notFound then
    Except.error HostThrow.unableToLocateDiagnosticNode
  else if code = 1192 then
    Except.ok
      { code := code, file := USER_CODE_FILENAME, start := none, length := none
        messageText := DiagnosticMessageText.plain (noDefaultExportMessage argsText outputText) }
  else if code = 2306 then
    Except.ok
      { code := code, file := USER_CODE_FILENAME, start := none, length := none
        messageText := DiagnosticMessageText.plain (noExportsMessage argsText outputText) }
  else if code = 2349 ∧ node = HarnessNode.defaultFunctionIdentifier then
    match defaultExportNode userStmts with
    | none => Except.error HostThrow.jsTypeError
    | some span =>
      Except.ok
        { code := code, file := USER_CODE_FILENAME
          start := some (JsNum.num span.start)
          length := some (JsNum.num ((span.stop : Int) - (span.start : Int)))
          messageText := DiagnosticMessageText.plain (notCallableMessage argsText outputText) }
  else if node = HarnessNode.resultIdentifier then
    match defaultExportedFunctionNode userStmts with
    | none => Except.error HostThrow.jsTypeError
    | some f =>
      match f.returnType with
      | none => Except.error HostThrow.jsTypeError
      | some tn =>
        Except.ok
          { code := code, file := USER_CODE_FILENAME
            start := some (JsNum.num tn.start)
            length := some (JsNum.num ((tn.stop : Int) - (tn.start : Int)))
            messageText :=
              DiagnosticMessageText.plain (incorrectReturnMessage outputText tn.text) }
  else if node = HarnessNode.defaultFunctionCall ∨
      node = HarnessNode.defaultFunctionIdentifier ∨
      node = HarnessNode.argumentsList then
    match defaultExportedFunctionNode userStmts with
    | none => Except.error HostThrow.jsTypeError
    | some f =>
      let minStart := mathMin (f.parameters.map (fun p => (p.span.start : Int)))
      let maxStop := mathMax (f.parameters.map (fun p => (p.span.stop : Int)))
      Except.ok
        { code := code, file := USER_CODE_FILENAME
          start := some minStart
          length := some (jsSub maxStop minStart)
          messageText :=
            DiagnosticMessageText.plain
              (incorrectArgumentMessage argsText (f.parameters.map (fun p => p.typeText))) }
  else
    Except.error (HostThrow.unmappedHarnessError code)

/-- `UserCodeTypeError.message` /(inherited by `ExecutionHarnessTypeError`):
`"TypeError: TS" + code + " " + mapDiagnosticMessage(diagnostic).join('\n')`. -/
def userCodeTypeErrorMessage (mappers : Mappers) (code : Nat)
    (text : DiagnosticMessageText) : Except HostThrow String :=
  (mapDiagnosticMessage mappers code text).map (fun msgs =>
    "TypeError: TS" ++ toString code ++ " " ++ String.intercalate "\n" msgs)

/-! ## The diagnostic loop of `preProcess` -/

/-- A raw compiler diagnostic as consumed by the pre-emit loop of
`preProcess`: its file (if any), code, message, span, and — for harness-file
diagnostics — the harness anchor its span resolves to. -/
structure DiagnosticModel where
  fileName : Option String
  code : Nat
  node : HarnessNode
  start : Option Nat
  length : Option Nat
  messageText : DiagnosticMessageText

mutual

/-- `getDiagnosticMessageChainCodes`. -/
def chainCodes : DiagnosticMessageChain → List Nat
  | DiagnosticMessageChain.node _ code next => code :: chainCodesList next

/-- The loop over a chain's `next` list. -/
def chainCodesList : List DiagnosticMessageChain → List Nat
  | [] => []
  | c :: cs => chainCodes c ++ chainCodesList cs

end

/-- `getDiagnosticCodes`: the diagnostic's own code, plus the chain codes when
the message is not a plain string. -/
def getDiagnosticCodes (d : DiagnosticModel) : List Nat :=
  d.code ::
    (match d.messageText with
     | DiagnosticMessageText.plain _ => []
     | DiagnosticMessageText.chain c => chainCodes c)

/-- The pre-emit diagnostic loop of `preProcess`: a diagnostic with a file
becomes a `UserCodeError` via `UserCodeTypeError.new` (running the
`ExecutionHarnessTypeError` constructor — and propagating its throws — when
the file's stripped name is the harness); a file-less diagnostic is skipped
when its codes include 1420 and otherwise raises the
`Unhandled diagnostic` error. -/
def processDiagnostics (userStmts : UserFileModel) (argsText outputText : String) :
    List DiagnosticModel → Except HostThrow (List RewrittenDiagnostic)
  | [] => Except.ok []
  | d :: ds =>
    match d.fileName with
    | none =>
      if (getDiagnosticCodes d).any (fun c => [1420].contains c) then
        processDiagnostics userStmts argsText outputText ds
      else
        Except.error (HostThrow.unhandledDiagnostic d.code)
    | some fn => do
      let rewritten ←
        if removeExt fn = EXECUTION_HARNESS_FILENAME then
          executionHarnessTypeErrorCtor d.code d.node userStmts argsText outputText
        else
          pure { code := d.code, file := fn
                 start := d.start.map (fun n => JsNum.num (n : Int))
                 length := d.length.map (fun n => JsNum.num (n : Int))
                 messageText := d.messageText : RewrittenDiagnostic }
      let rest ← processDiagnostics userStmts argsText outputText ds
      pure (rewritten :: rest)

/-! ## `UserCodeRuntimeError`: stack and location over parsed frames -/

/-- One parsed stack frame (`stack-trace`'s `CallSite` surface as used by the
runner): `getFileName()`, `getLineNumber()`, `getColumnNumber()`,
`getFunctionName()`. -/
structure CallSite where
  fileName : Option String
  lineNumber : Nat
  columnNumber : Nat
  functionName : Option String
deriving DecidableEq

/-- The result of `sourceMap.originalPositionFor({line, column})`: both fields
are null when the position has no mapping. -/
structure MappedPosition where
  line : Option Nat
  column : Option Nat
deriving DecidableEq

/-- The source-map translation for the user file, as a function from the
emitted (line, column) to the original position. -/
abbrev SourceMapModel := Nat → Nat → MappedPosition

/-- JS `String.prototype.endsWith`. -/
def strEndsWith (s suffix : String) : Bool :=
  List.isSuffixOf suffix.data s.data

/-- `callSite.getFileName()?.endsWith(USER_CODE_FILENAME)` coerced to a
boolean: `undefined` is falsy. -/
def jsOptEndsWith : Option String → String → Bool
  | none, _ => false
  | some s, suffix => strEndsWith s suffix

/-- The frame filter of `UserCodeRuntimeError.stack`: keep frames whose file
name ends with the user file name, then keep frames with a file name whose
translated line is not null. -/
def runtimeStackFrames (sm : SourceMapModel) (frames : List CallSite) : List CallSite :=
  (frames.filter (fun c => jsOptEndsWith c.fileName USER_CODE_FILENAME)).filter
    (fun c =>
      match c.fileName with
      | none => false
      | some _ => (sm c.lineNumber c.columnNumber).line.isSome)

/-- JS string concatenation of a nullable function name: `null` prints as
`"null"`. -/
def jsNullableName : Option String → String
  | none => "null"
  | some s => s

/-- JS string concatenation of a nullable line or column number. -/
def jsNullableNat : Option Nat → String
  | none => "null"
  | some n => toString n

/-- One rendered stack line:
`'at ' + functionName + '(' + mappedLine + ':' + mappedColumn + ')'`. -/
def renderFrame (sm : SourceMapModel) (c : CallSite) : String :=
  "at " ++ jsNullableName c.functionName ++ "(" ++
    jsNullableNat (sm c.lineNumber c.columnNumber).line ++ ":" ++
    jsNullableNat (sm c.lineNumber c.columnNumber).column ++ ")"

/-- `UserCodeRuntimeError.stack`: the retained frames, innermost first, each
rendered and joined with newlines. -/
def runtimeStack (sm : SourceMapModel) (frames : List CallSite) : String :=
  String.intercalate "\n" ((runtimeStackFrames sm frames).map (renderFrame sm))

/-- `UserCodeRuntimeError.location`: translate the raw innermost frame
`stack[0]` and pass the (possibly null) line/column through; an empty stack
dereferences `undefined` and throws. -/
def runtimeLocation (sm : SourceMapModel) : List CallSite → Except HostThrow MappedPosition
  | [] => Except.error HostThrow.jsTypeError
  | f :: _ => Except.ok (sm f.lineNumber f.columnNumber)

/-- The frame filter the claims describe: logical-name equality to the user
file (not suffix match) plus a non-null translation. -/
def claimedRetainedFrames (sm : SourceMapModel) (frames : List CallSite) : List CallSite :=
  frames.filter (fun c =>
    c.fileName == some USER_CODE_FILENAME &&
      (sm c.lineNumber c.columnNumber).line.isSome)

/-- The stack string the claim describes: the equality-filtered frames,
rendered like the source renders them. -/
def claimedRuntimeStack (sm : SourceMapModel) (frames : List CallSite) : String :=
  String.intercalate "\n" ((claimedRetainedFrames sm frames).map (renderFrame sm))

/-- The location the claim describes: the translation of the innermost
retained frame, or `(1, 1)` when no frame survives the filter. -/
def claimedRuntimeLocation (sm : SourceMapModel) (frames : List CallSite) : MappedPosition :=
  match claimedRetainedFrames sm frames with
  | [] => { line := some 1, column := some 1 }
  | f :: _ => sm f.lineNumber f.columnNumber

/-- The per-frame rendering of the amended stack description: a frame
contributes a line exactly when its file name is present, ends with the user
file name, and its translated line is non-null. -/
def amendedFrameLine (sm : SourceMapModel) (c : CallSite) : Option String :=
  match c.fileName with
  | none => none
  | some name =>
    if strEndsWith name USER_CODE_FILENAME then
      match (sm c.lineNumber c.columnNumber).line with
      | some _ => some (renderFrame sm c)
      | none => none
    else none

/-- The amended stack: one pass over the frames, innermost first. -/
def amendedRuntimeStack (sm : SourceMapModel) (frames : List CallSite) : String :=
  String.intercalate "\n" (frames.filterMap (amendedFrameLine sm))

/-- The 1-based predicate of the claims: both fields present and at least 1. -/
def locationOneBased (m : MappedPosition) : Bool :=
  match m.line, m.column with
  | some l, some c => decide (1 ≤ l) && decide (1 ≤ c)
  | _, _ => false

/-! ## Concrete inputs used by the theorems -/

/-- A user file whose default export is an unannotated function declaration:
`export default function myGoal() \x7b return 5 \x7d`. -/
def c1NoAnnotStmts : UserFileModel :=
  [StatementModel.functionDecl
    { name := some "myGoal", hasExportModifier := true, hasDefaultModifier := true
      returnType := none, parameters := [] }]

/-- A user file whose default export is an arrow expression:
`export default () => 5` (an export assignment, not a function declaration). -/
def c1ArrowStmts : UserFileModel :=
  [StatementModel.exportAssignment true { start := 0, stop := 22, text := "export default () => 5" }]

/-- The return-type mismatch diagnostic the compiler reports at the harness
statement `__result = defaultExport(...__args)` for those user files. -/
def c1Diag : DiagnosticModel :=
  { fileName := some EXECUTION_HARNESS_FILENAME, code := 2322
    node := HarnessNode.resultIdentifier, start := some 200, length := some 8
    messageText :=
      DiagnosticMessageText.plain
        "Type \x27number\x27 is not assignable to type \x27Goal\x27." }

/-- An input whose compilation yields type diagnostics. -/
def c2Input : ExecInput :=
  { userCode := "export default function F(): number \x7b return 5; \x7d"
    outputType := "string", argsTypes := ["string"], auxTexts := [] }

/-- A compile function (the `preProcess` result) that fails with one
diagnostic, as it does on `c2Input`. -/
def c2Compile : ExecInput → Except (List String) Nat :=
  fun _ => Except.error ["TS2322 Incorrect return type."]

/-- Source map for the C3 scenario: only the user frame at emitted (3, 5) has
a mapping; the library frame's position precedes every mapping and
translates to null. -/
def c3SourceMap : SourceMapModel := fun l c =>
  if l = 3 && c = 5 then { line := some 2, column := some 4 }
  else { line := none, column := none }

/-- The innermost frame of the C3 fault: the throw happens inside an
auxiliary library file, the user frame is second. -/
def c3LibFrame : CallSite :=
  { fileName := some "constraints-edsl-fluent-api", lineNumber := 50, columnNumber := 1
    functionName := some "split" }

/-- The user-file frame of the C3 fault. -/
def c3UserFrame : CallSite :=
  { fileName := some USER_CODE_FILENAME, lineNumber := 3, columnNumber := 5
    functionName := some "default" }

/-- The parsed stack of the C3 fault, innermost first. -/
def c3Frames : List CallSite := [c3LibFrame, c3UserFrame]

/-- Source map for the C4 scenario: the fault maps to the start of a line
(source-map columns are 0-based, so the original column is 0). -/
def c4SourceMap : SourceMapModel := fun _ _ => { line := some 1, column := some 0 }

/-- A fault thrown directly in the user file at an emitted position that maps
to column 0. -/
def c4Frames : List CallSite :=
  [{ fileName := some USER_CODE_FILENAME, lineNumber := 1, columnNumber := 5
     functionName := some "F" }]

/-- Source map for the C5 scenario. -/
def c5SourceMap : SourceMapModel := fun _ _ => { line := some 3, column := some 4 }

/-- A fault whose only frame is in an auxiliary file whose logical name merely
ends with the user-file name. -/
def c5Frames : List CallSite :=
  [{ fileName := some "aux__user_file", lineNumber := 1, columnNumber := 1
     functionName := some "g" }]

/-- The user file of the C6 scenario:
`export function F(s: string): string \x7b return s; \x7d` (no default export). -/
def c6UserText : String :=
  "export function F(s: string): string \x7b return s; \x7d"

/-- Statement model of the C6 user file. -/
def c6UserStmts : UserFileModel :=
  [StatementModel.functionDecl
    { name := some "F", hasExportModifier := true, hasDefaultModifier := false
      returnType := some { start := 30, stop := 36, text := "string" }
      parameters := [{ span := { start := 18, stop := 27, text := "s: string" }
                       typeText := some "string" }] }]

/-- The message the source emits for the C6 scenario. -/
def c6CodeMessage : String :=
  "TypeError: TS1192 No default export. Expected a default export with the signature: \"(...args: [string]) => string\"."

/-- The message the claim (and the repository's test suite) expects for the
C6 scenario. -/
def c6ClaimMessage : String :=
  "TypeError: TS1192 No default export. Expected a default export function with the signature: \"(...args: [string]) => string\"."

/-- First C8 input: `outputType 'a'`, `argsTypes ['b', 'c']`. -/
def c8Input1 : ExecInput :=
  { userCode := "u", outputType := "a", argsTypes := ["b", "c"], auxTexts := ["x"] }

/-- Second C8 input: `outputType 'a:b'`, `argsTypes ['c']` — a different tuple
with the same colon-joined key string. -/
def c8Input2 : ExecInput :=
  { userCode := "u", outputType := "a:b", argsTypes := ["c"], auxTexts := ["x"] }

/-- A compile function whose artifact records which input was compiled, so the
provenance of a cache hit is visible in the result. -/
def c8Compile : ExecInput → Except (List String) ExecInput :=
  fun i => Except.ok i

/-! ## Helper lemmas -/

/-- `String.join` distributes over cons. -/
theorem string_join_cons (x : String) (xs : List String) :
    String.join (x :: xs) = x ++ String.join xs := by
  apply String.ext
  simp [String.join_eq]

/-- `String.join` of the empty list is empty. -/
theorem string_join_nil : String.join [] = "" := by
  apply String.ext
  simp [String.join_eq]

/-- Folding colon-prefixed fields from an arbitrary accumulator appends the
joined colon-prefixed fields. -/
theorem foldl_colon_eq_join (auxTexts : List String) :
    ∀ s : String, auxTexts.foldl (fun acc t => acc ++ ":" ++ t) s =
      s ++ String.join (auxTexts.map (fun t => ":" ++ t)) := by
  induction auxTexts with
  | nil =>
    intro s
    simp [string_join_nil]
  | cons a l ih =>
    intro s
    simp only [List.foldl_cons, List.map_cons]
    rw [ih, string_join_cons]
    simp [String.append_assoc]

/-- Mapping over two chained filters equals a single `filterMap` pass whose
per-element rule matches the conjunction of the two predicates. -/
theorem two_filter_map_eq_filterMap {α β : Type} (p1 p2 : α → Bool) (r : α → β)
    (F : α → Option β)
    (h : ∀ a, F a = if p1 a && p2 a then some (r a) else none) :
    ∀ l : List α, ((l.filter p1).filter p2).map r = l.filterMap F := by
  intro l
  induction l with
  | nil => rfl
  | cons c rest ih =>
    rw [List.filter_cons, List.filterMap_cons, h c]
    by_cases h1 : p1 c = true
    · rw [if_pos h1, List.filter_cons]
      by_cases h2 : p2 c = true
      · rw [if_pos h2, List.map_cons, ih]
        simp [h1, h2]
      · rw [if_neg h2, ih]
        simp [h1, h2]
    · rw [if_neg h1, ih]
      simp [h1]

/-- The per-frame rule of the amended stack agrees with the two filters plus
rendering of the source's stack getter. -/
theorem amendedFrameLine_spec (sm : SourceMapModel) (c : CallSite) :
    amendedFrameLine sm c =
      if jsOptEndsWith c.fileName USER_CODE_FILENAME &&
          (match c.fileName with
           | none => false
           | some _ => (sm c.lineNumber c.columnNumber).line.isSome) then
        some (renderFrame sm c)
      else none := by
  rcases hc : c.fileName with _ | name
  · simp [amendedFrameLine, jsOptEndsWith, hc]
  · by_cases he : strEndsWith name USER_CODE_FILENAME
    · rcases hl : (sm c.lineNumber c.columnNumber).line with _ | l
      · simp [amendedFrameLine, jsOptEndsWith, hc, he, hl]
      · simp [amendedFrameLine, jsOptEndsWith, hc, he, hl]
    · simp [amendedFrameLine, jsOptEndsWith, hc, he]

/-- The two-pass filter-then-render of `UserCodeRuntimeError.stack` equals a
single `filterMap` pass with the combined per-frame rule. -/
theorem stack_filter_eq_filterMap (sm : SourceMapModel) (frames : List CallSite) :
    (runtimeStackFrames sm frames).map (renderFrame sm) =
      frames.filterMap (amendedFrameLine sm) := by
  unfold runtimeStackFrames
  exact two_filter_map_eq_filterMap _ _ _ _ (amendedFrameLine_spec sm) frames

/-! ## Claim theorems -/

/-- Claim C1 (code bug): `executeUserCode` does throw on user-caused
conditions. When the compiler reports a return-type mismatch at the harness
result identifier and the user module's default export is an arrow expression
(`c1ArrowStmts`) or an exported function declaration without an explicit
return-type annotation (`c1NoAnnotStmts`), the `ExecutionHarnessTypeError`
constructor dereferences `this.defaultExportedFunctionNode!.type!` on
`undefined` and the resulting JS `TypeError` propagates out of `preProcess`
and `executeUserCode` instead of an `Err` list being returned. -/
theorem c1_executeUserCode_throws_on_user_fault :
    processDiagnostics c1NoAnnotStmts "[string]" "Goal" [c1Diag] =
      Except.error HostThrow.jsTypeError ∧
    processDiagnostics c1ArrowStmts "[string]" "Goal" [c1Diag] =
      Except.error HostThrow.jsTypeError :=
  ⟨rfl, rfl⟩

/-- Claim C2 counterexample: a compilation that yields type diagnostics is not
stored in the cache — the `Err` is returned before the `set` call — so a
second byte-identical call runs `preProcess` again instead of being a pure
lookup. -/
theorem c2_failure_not_cached_counterexample :
    (executeCompileStage c2Compile [] c2Input).result =
      Except.error ["TS2322 Incorrect return type."] ∧
    (executeCompileStage c2Compile [] c2Input).cacheAfter = [] ∧
    (executeCompileStage c2Compile [] c2Input).compiled = true ∧
    (executeCompileStage c2Compile
        (executeCompileStage c2Compile [] c2Input).cacheAfter c2Input).compiled = true :=
  ⟨rfl, rfl, rfl, rfl⟩

/-- Claim C2 (amended): only successful compilations are cached. On a cache
miss, a failing compile returns its diagnostics with the cache unchanged and a
second identical call compiles again; a successful compile is stored and the
second identical call is a pure lookup of the same artifact. -/
theorem c2_only_success_cached {α ε : Type} (compile : ExecInput → Except ε α)
    (cache : List (String × α)) (i : ExecInput)
    (hmiss : cacheGet cache (cacheKey i) = none) :
    (∀ e : ε, compile i = Except.error e →
      (executeCompileStage compile cache i).result = Except.error e ∧
      (executeCompileStage compile cache i).cacheAfter = cache ∧
      (executeCompileStage compile cache i).compiled = true ∧
      (executeCompileStage compile
          (executeCompileStage compile cache i).cacheAfter i).compiled = true) ∧
    (∀ a : α, compile i = Except.ok a →
      (executeCompileStage compile cache i).cacheAfter = cacheSet cache (cacheKey i) a ∧
      (executeCompileStage compile
          (executeCompileStage compile cache i).cacheAfter i).compiled = false ∧
      (executeCompileStage compile
          (executeCompileStage compile cache i).cacheAfter i).result = Except.ok a) := by
  constructor
  · intro e he
    simp [executeCompileStage, hmiss, he]
  · intro a ha
    have hGet2 : cacheGet (cacheSet cache (cacheKey i) a) (cacheKey i) = some a := by
      simp [cacheGet, cacheSet, List.find?_cons]
    simp [executeCompileStage, hmiss, ha, hGet2]

/-- Witness for `c2_only_success_cached` at the concrete failing input. -/
theorem c2_only_success_cached_witness :
    (executeCompileStage c2Compile [] c2Input).cacheAfter = [] ∧
    (executeCompileStage c2Compile
        (executeCompileStage c2Compile [] c2Input).cacheAfter c2Input).compiled = true := by
  have h := (c2_only_success_cached c2Compile [] c2Input rfl).1
      ["TS2322 Incorrect return type."] rfl
  exact ⟨h.2.1, h.2.2.2⟩

/-- Claim C3 counterexample: for a fault whose innermost raw frame lies in an
auxiliary library file with a null translation, the code emits the translation
of that raw frame (`\x7bline: null, column: null\x7d`), not the translation
`(2, 4)` of the innermost retained user-file frame the claim describes. -/
theorem c3_location_ignores_filter_counterexample :
    runtimeLocation c3SourceMap c3Frames = Except.ok { line := none, column := none } ∧
    claimedRuntimeLocation c3SourceMap c3Frames = { line := some 2, column := some 4 } ∧
    ({ line := none, column := none } : MappedPosition) ≠
      { line := some 2, column := some 4 } :=
  ⟨rfl, rfl, by decide⟩

/-- Claim C3 (amended): the emitted location is the source-map translation of
the raw innermost frame `stack[0]` with no filtering — null values are passed
through and an empty stack throws — and it coincides with the translation of
the innermost retained frame exactly when the raw innermost frame itself lies
in the user file and translates non-null. -/
theorem c3_location_uses_raw_innermost_frame :
    (∀ (sm : SourceMapModel) (f : CallSite) (fs : List CallSite),
      runtimeLocation sm (f :: fs) = Except.ok (sm f.lineNumber f.columnNumber)) ∧
    (∀ sm : SourceMapModel, runtimeLocation sm [] = Except.error HostThrow.jsTypeError) ∧
    (∀ (sm : SourceMapModel) (f : CallSite) (fs : List CallSite),
      f.fileName = some USER_CODE_FILENAME →
      (sm f.lineNumber f.columnNumber).line.isSome = true →
      claimedRuntimeLocation sm (f :: fs) = sm f.lineNumber f.columnNumber) := by
  refine ⟨fun _ _ _ => rfl, fun _ => rfl, fun sm f fs h1 h2 => ?_⟩
  simp [claimedRuntimeLocation, claimedRetainedFrames, List.filter_cons, h1, h2]

/-- Witness for `c3_location_uses_raw_innermost_frame` at a concrete frame. -/
theorem c3_location_witness :
    claimedRuntimeLocation c3SourceMap [c3UserFrame] =
      c3SourceMap c3UserFrame.lineNumber c3UserFrame.columnNumber :=
  c3_location_uses_raw_innermost_frame.2.2 c3SourceMap c3UserFrame [] rfl rfl

/-- Claim C4 counterexample: a runtime diagnostic whose innermost frame maps
to the start of a line carries the source map's 0-based column through
unchanged, so its location has column 0 and the 1-based invariant fails. -/
theorem c4_runtime_column_zero_counterexample :
    runtimeLocation c4SourceMap c4Frames = Except.ok { line := some 1, column := some 0 } ∧
    locationOneBased { line := some 1, column := some 0 } = false :=
  ⟨rfl, rfl⟩

/-- Claim C4 (amended): type-error diagnostics (user-file and harness) have
1-based line and column, both at least 1; runtime diagnostics pass the
source-map translation through unchanged (1-based line, 0-based and possibly
null column), so their column can be 0. -/
theorem c4_type_errors_one_based_runtime_passthrough :
    (∀ (text : String) (st : Option Nat),
      match userTypeErrorLocation text st with
      | Except.ok loc => 1 ≤ loc.line ∧ 1 ≤ loc.column
      | Except.error _ => True) ∧
    (∀ (text : String) (st : Option JsNum),
      1 ≤ (harnessErrorLocation text st).line ∧ 1 ≤ (harnessErrorLocation text st).column) ∧
    (∀ (sm : SourceMapModel) (f : CallSite) (fs : List CallSite),
      runtimeLocation sm (f :: fs) = Except.ok (sm f.lineNumber f.columnNumber)) := by
  refine ⟨fun text st => ?_, fun text st => ?_, fun _ _ _ => rfl⟩
  · cases st with
    | none => simp [userTypeErrorLocation]
    | some s => simp [userTypeErrorLocation]
  · cases st with
    | none => exact ⟨Nat.le_refl 1, Nat.le_refl 1⟩
    | some s => exact ⟨Nat.succ_le_succ (Nat.zero_le _), Nat.succ_le_succ (Nat.zero_le _)⟩

/-- Claim C5 counterexample: a frame in an auxiliary file whose logical name
merely ends with `__user_file` is retained by the code's suffix filter and
rendered, while the logical-name-equality filter of the claim retains
nothing. -/
theorem c5_suffix_filter_counterexample :
    runtimeStack c5SourceMap c5Frames = "at g(3:4)" ∧
    claimedRuntimeStack c5SourceMap c5Frames = "" ∧
    runtimeStack c5SourceMap c5Frames ≠ claimedRuntimeStack c5SourceMap c5Frames :=
  ⟨rfl, rfl, by decide⟩

/-- Claim C5 (amended): the stack contains exactly the frames whose file name
is present and ends with the user file name and whose translation is non-null,
innermost first, each rendered as `at <functionName>(line:column)`. -/
theorem c5_stack_is_suffix_filtered_frames (sm : SourceMapModel) (frames : List CallSite) :
    runtimeStack sm frames = amendedRuntimeStack sm frames := by
  unfold runtimeStack amendedRuntimeStack
  rw [stack_filter_eq_filterMap]

/-- Claim C6 (code bug): for the no-default-export input, the code rewrites
the TS1192 diagnostic to the message
`No default export. Expected a default export with the signature: ...` —
without the word `function` that both the claim and the repository's test
suite (`should handle no default export errors`) demand — while the location
is `(1, 1)` as claimed. -/
theorem c6_no_default_export_message_diverges :
    executionHarnessTypeErrorCtor 1192 HarnessNode.otherNode c6UserStmts "[string]" "string" =
      Except.ok
        { code := 1192, file := USER_CODE_FILENAME, start := none, length := none
          messageText :=
            DiagnosticMessageText.plain (noDefaultExportMessage "[string]" "string") } ∧
    userCodeTypeErrorMessage defaultErrorCodeMessageMappers 1192
        (DiagnosticMessageText.plain (noDefaultExportMessage "[string]" "string")) =
      Except.ok c6CodeMessage ∧
    harnessErrorLocation c6UserText none = { line := 1, column := 1 } ∧
    c6CodeMessage ≠ c6ClaimMessage :=
  ⟨rfl, rfl, rfl, by decide⟩

/-- Claim C7 counterexample: the string hashed by `executeUserCode` separates
fields with `":"`, not with U+0001, so it differs from the spec's key string
already on `userSource = "a"`, `returnType = "b"`, no argument types and no
auxiliary files. -/
theorem c7_separator_counterexample :
    hashInput "a" "b" [] [] = "a:b:" ∧
    specKeyInput "a" "b" [] [] = "a\u0001b\u0001\u0001" ∧
    hashInput "a" "b" [] [] ≠ specKeyInput "a" "b" [] [] :=
  ⟨rfl, rfl, by decide⟩

/-- Claim C7 (amended): the hashed key string is the user source followed by a
colon-prefixed return type, a colon-prefixed colon-join of the argument types
(an empty field when there are none) and a colon-prefixed block per auxiliary
text. -/
theorem c7_cache_key_colon_scheme (userCode outputType : String)
    (argsTypes auxTexts : List String) :
    hashInput userCode outputType argsTypes auxTexts =
      amendedKeyInput userCode outputType argsTypes auxTexts := by
  simp only [hashInput, amendedKeyInput, List.foldl_cons, List.foldl_nil,
    foldl_colon_eq_join]
  simp

/-- Claim C8: two distinct input tuples — same user source and auxiliary
files, `outputType 'a'` with `argsTypes ['b', 'c']` versus `outputType 'a:b'`
with `argsTypes ['c']` — produce the same cache key, and the second call
performs no compilation and returns the artifact cached for the first input. -/
theorem c8_cache_key_collision :
    c8Input1 ≠ c8Input2 ∧
    cacheKey c8Input1 = cacheKey c8Input2 ∧
    (executeCompileStage c8Compile
        (executeCompileStage c8Compile [] c8Input1).cacheAfter c8Input2).compiled = false ∧
    (executeCompileStage c8Compile
        (executeCompileStage c8Compile [] c8Input1).cacheAfter c8Input2).result =
      Except.ok c8Input1 :=
  ⟨by decide, rfl, rfl, rfl⟩

/-- Claim C9: for a payload other than the `None` sentinel, `Result.Ok` is
`isOk` and not `isErr`, `Result.Err` is `isErr` and not `isOk`; for the
sentinel itself, `Result.Ok(None)` satisfies neither. -/
theorem c9_result_ok_err_partition (α ε : Type) [DecidableEq α] [DecidableEq ε] :
    (∀ a : α, (Result.Ok (JsValue.payload a) : Result α ε).isOk = true ∧
      (Result.Ok (JsValue.payload a) : Result α ε).isErr = false) ∧
    (∀ e : ε, (Result.Err (JsValue.payload e) : Result α ε).isErr = true ∧
      (Result.Err (JsValue.payload e) : Result α ε).isOk = false) ∧
    (Result.Ok JsValue.noneSentinel : Result α ε).isOk = false ∧
    (Result.Ok JsValue.noneSentinel : Result α ε).isErr = false :=
  ⟨fun _ => ⟨rfl, rfl⟩, fun _ => ⟨rfl, rfl⟩, rfl, rfl⟩

/-- Claim C10: the predicate built by the `Or` combinator rejects every value
for every guard list, because the callback passed to `guards.some` discards
the guard's result and returns `undefined`. -/
theorem c10_or_combinator_rejects_all (α : Type) (gs : List (α → Bool)) (a : α) :
    Or gs a = false := by
  simp [Or, orSomeCallback, jsTruthy]

end UCR
